import Mathlib

/-!
Shallow embedding of the capability resolution, validation and assembly engine
of src/rust/src/ec2/plugins/mod.rs (the `Plugin` enum and the `create` function).

Modelling conventions:
* `Plugin` mirrors the Rust enum member for member; the `Unknown(String)`
  variant is `Plugin.unknown`.
* Machine integer ranks (`u32`) are `Nat`; the only rank arithmetic in the
  source is `u32::MAX - k`, written out as explicit numerals
  (`u32::MAX = 4294967295`).
* The per-capability script generators live in the excluded `scripts` module;
  the engine never inspects the text they return, so a generated fragment is
  modelled as the abstract token `Frag.gen p` (and the non-plugin-keyed
  fragments `start`, `update_bash_profile`, `aws_key`, the inline
  user post-init block, the separator banner and the completion-marker block
  get their own constructors).  Generators are total here; context fields that
  only parameterize fragment text (os type, bucket, id, region, volume
  parameters) are omitted for the same reason.
* The Rust `HashSet<Plugin>` deduplicates by the derived (structural) `Hash`,
  so the set is modelled as a duplicate-free list in insertion order with
  structural equality; `Vec::sort` (by `Ord`, i.e. by rank) is modelled with
  `List.insertionSort` on the rank order.
* A Rust `return Err(..)` is `Except.error`; the error of the main generation
  loop additionally carries the assembly state at the abort point, recording
  which fragments had already been generated when the error was detected (the
  source holds them in `contents` at that moment and then discards them).
* A panic (`Option::unwrap` on `None`) is distinguished from an error return:
  `create` evaluates to `CreateResult.panic` there.
-/

/-- The capability vocabulary: every member of the Rust `Plugin` enum,
plus the open `Unknown(String)` extension variant. -/
inductive Plugin where
  | imds
  | providerId
  | vercmp
  | setupLocalDisks
  | mountBpfFs
  | timeSync
  | systemLimitBump
  | awsCli
  | ssmAgent
  | cloudwatchAgent
  | staticVolumeProvisioner
  | staticIpProvisioner
  | anaconda
  | python
  | rust
  | go
  | docker
  | containerd
  | runc
  | cniPlugins
  | awsCfnHelper
  | saml2aws
  | awsIamAuthenticator
  | ecrCredentialHelper
  | ecrCredentialProvider
  | kubelet
  | kubectl
  | helm
  | terraform
  | sshKeyWithEmail
  | ena
  | nvidiaDriver
  | nvidiaCudaToolkit
  | nvidiaContainerToolkit
  | amdRadeonGpuDriver
  | protobufCompiler
  | cmake
  | gcc7
  | devBark
  | devFaissGpu
  | eksWorkerNodeAmiScratch
  | eksWorkerNodeAmiReuse
  | amiInfo
  | clusterInfo
  | postInitScript
  | cleanupImagePackages
  | cleanupImageTmpDir
  | cleanupImageAwsCredentials
  | cleanupImageSshKeys
  | unknown (s : String)
deriving DecidableEq, Repr

namespace Plugin

/-- Parsing: the `From<&str> for Plugin` impl.  Never fails; any string not
matching a known form yields `unknown` wrapping the string verbatim. -/
def fromString (s : String) : Plugin :=
  match s with
  | "imds" => .imds
  | "provider-id" => .providerId
  | "vercmp" => .vercmp
  | "setup-local-disks" => .setupLocalDisks
  | "mount-bpf-fs" => .mountBpfFs
  | "time-sync" => .timeSync
  | "system-limit-bump" => .systemLimitBump
  | "aws-cli" => .awsCli
  | "ssm-agent" => .ssmAgent
  | "cloudwatch-agent" => .cloudwatchAgent
  | "static-volume-provisioner" => .staticVolumeProvisioner
  | "static-ip-provisioner" => .staticIpProvisioner
  | "anaconda" => .anaconda
  | "python" => .python
  | "rust" => .rust
  | "go" => .go
  | "docker" => .docker
  | "containerd" => .containerd
  | "runc" => .runc
  | "cni-plugins" => .cniPlugins
  | "aws-cfn-helper" => .awsCfnHelper
  | "saml2aws" => .saml2aws
  | "aws-iam-authenticator" => .awsIamAuthenticator
  | "ecr-credential-helper" => .ecrCredentialHelper
  | "ecr-credential-provider" => .ecrCredentialProvider
  | "kubelet" => .kubelet
  | "kubectl" => .kubectl
  | "helm" => .helm
  | "terraform" => .terraform
  | "ssh-key-with-email" => .sshKeyWithEmail
  | "ena" => .ena
  | "nvidia-driver" => .nvidiaDriver
  | "nvidia-cuda-toolkit" => .nvidiaCudaToolkit
  | "nvidia-container-toolkit" => .nvidiaContainerToolkit
  | "amd-radeon-gpu-driver" => .amdRadeonGpuDriver
  | "protobuf-compiler" => .protobufCompiler
  | "cmake" => .cmake
  | "gcc7" => .gcc7
  | "dev-bark" => .devBark
  | "dev-faiss-gpu" => .devFaissGpu
  | "eks-worker-node-ami-scratch" => .eksWorkerNodeAmiScratch
  | "eks-worker-node-ami-reuse" => .eksWorkerNodeAmiReuse
  | "ami-info" => .amiInfo
  | "cluster-info" => .clusterInfo
  | "post-init-script" => .postInitScript
  | "cleanup-image-packages" => .cleanupImagePackages
  | "cleanup-image-tmp-dir" => .cleanupImageTmpDir
  | "cleanup-image-aws-credentials" => .cleanupImageAwsCredentials
  | "cleanup-image-ssh-keys" => .cleanupImageSshKeys
  | other => .unknown other

/-- Printing: `Plugin::as_str`.  Returns the wrapped string for `unknown`. -/
def asStr (p : Plugin) : String :=
  match p with
  | .imds => "imds"
  | .providerId => "provider-id"
  | .vercmp => "vercmp"
  | .setupLocalDisks => "setup-local-disks"
  | .mountBpfFs => "mount-bpf-fs"
  | .timeSync => "time-sync"
  | .systemLimitBump => "system-limit-bump"
  | .awsCli => "aws-cli"
  | .ssmAgent => "ssm-agent"
  | .cloudwatchAgent => "cloudwatch-agent"
  | .staticVolumeProvisioner => "static-volume-provisioner"
  | .staticIpProvisioner => "static-ip-provisioner"
  | .anaconda => "anaconda"
  | .python => "python"
  | .rust => "rust"
  | .go => "go"
  | .docker => "docker"
  | .containerd => "containerd"
  | .runc => "runc"
  | .cniPlugins => "cni-plugins"
  | .awsCfnHelper => "aws-cfn-helper"
  | .saml2aws => "saml2aws"
  | .awsIamAuthenticator => "aws-iam-authenticator"
  | .ecrCredentialHelper => "ecr-credential-helper"
  | .ecrCredentialProvider => "ecr-credential-provider"
  | .kubelet => "kubelet"
  | .kubectl => "kubectl"
  | .helm => "helm"
  | .terraform => "terraform"
  | .sshKeyWithEmail => "ssh-key-with-email"
  | .ena => "ena"
  | .nvidiaDriver => "nvidia-driver"
  | .nvidiaCudaToolkit => "nvidia-cuda-toolkit"
  | .nvidiaContainerToolkit => "nvidia-container-toolkit"
  | .amdRadeonGpuDriver => "amd-radeon-gpu-driver"
  | .protobufCompiler => "protobuf-compiler"
  | .cmake => "cmake"
  | .gcc7 => "gcc7"
  | .devBark => "dev-bark"
  | .devFaissGpu => "dev-faiss-gpu"
  | .eksWorkerNodeAmiScratch => "eks-worker-node-ami-scratch"
  | .eksWorkerNodeAmiReuse => "eks-worker-node-ami-reuse"
  | .amiInfo => "ami-info"
  | .clusterInfo => "cluster-info"
  | .postInitScript => "post-init-script"
  | .cleanupImagePackages => "cleanup-image-packages"
  | .cleanupImageTmpDir => "cleanup-image-tmp-dir"
  | .cleanupImageAwsCredentials => "cleanup-image-aws-credentials"
  | .cleanupImageSshKeys => "cleanup-image-ssh-keys"
  | .unknown s => s

/-- The ordering rank: `Plugin::rank`.  `u32::MAX = 4294967295`. -/
def rank (p : Plugin) : Nat :=
  match p with
  | .imds => 0
  | .providerId => 1
  | .vercmp => 2
  | .setupLocalDisks => 3
  | .mountBpfFs => 4
  | .timeSync => 5
  | .systemLimitBump => 6
  | .awsCli => 7
  | .ssmAgent => 8
  | .cloudwatchAgent => 9
  | .staticVolumeProvisioner => 20
  | .staticIpProvisioner => 21
  | .anaconda => 25
  | .python => 25
  | .rust => 26
  | .go => 27
  | .docker => 28
  | .containerd => 29
  | .runc => 30
  | .cniPlugins => 31
  | .awsCfnHelper => 32
  | .saml2aws => 33
  | .awsIamAuthenticator => 34
  | .ecrCredentialHelper => 35
  | .ecrCredentialProvider => 36
  | .kubelet => 37
  | .kubectl => 38
  | .helm => 50
  | .terraform => 51
  | .sshKeyWithEmail => 68
  | .ena => 100
  | .nvidiaDriver => 200
  | .nvidiaCudaToolkit => 201
  | .nvidiaContainerToolkit => 202
  | .amdRadeonGpuDriver => 300
  | .protobufCompiler => 60000
  | .cmake => 60001
  | .gcc7 => 60002
  | .devBark => 80000
  | .devFaissGpu => 80001
  | .eksWorkerNodeAmiScratch => 99990
  | .eksWorkerNodeAmiReuse => 99991
  | .amiInfo => 4294965295
  | .clusterInfo => 4294965296
  | .postInitScript => 4294966295
  | .cleanupImagePackages => 4294967285
  | .cleanupImageTmpDir => 4294967286
  | .cleanupImageAwsCredentials => 4294967287
  | .cleanupImageSshKeys => 4294967290
  | .unknown _ => 4294967295

/-- True on every enum member other than the open `unknown` extension. -/
def isKnown (p : Plugin) : Bool :=
  match p with
  | .unknown _ => false
  | _ => true

/-- The 49 known members, enumerated. -/
def knownList : List Plugin :=
  [.imds, .providerId, .vercmp, .setupLocalDisks, .mountBpfFs,
   .timeSync, .systemLimitBump, .awsCli, .ssmAgent, .cloudwatchAgent,
   .staticVolumeProvisioner, .staticIpProvisioner,
   .anaconda, .python, .rust, .go,
   .docker, .containerd, .runc, .cniPlugins,
   .awsCfnHelper, .saml2aws, .awsIamAuthenticator,
   .ecrCredentialHelper, .ecrCredentialProvider,
   .kubelet, .kubectl, .helm, .terraform,
   .sshKeyWithEmail, .ena,
   .nvidiaDriver, .nvidiaCudaToolkit, .nvidiaContainerToolkit,
   .amdRadeonGpuDriver,
   .protobufCompiler, .cmake, .gcc7,
   .devBark, .devFaissGpu,
   .eksWorkerNodeAmiScratch, .eksWorkerNodeAmiReuse,
   .amiInfo, .clusterInfo, .postInitScript,
   .cleanupImagePackages, .cleanupImageTmpDir,
   .cleanupImageAwsCredentials, .cleanupImageSshKeys]

/-- The comparator of the `Ord for Plugin` impl: compare by rank. -/
def cmpRank (a b : Plugin) : Ordering :=
  compare a.rank b.rank

/-- The `PartialEq for Plugin` impl: two plugins are equal when the rank
comparator returns `Equal`, i.e. when their ranks coincide. -/
def peq (a b : Plugin) : Bool :=
  cmpRank a b == Ordering.eq

end Plugin

/-- Insertion into the deduplicated selection set (`HashSet::insert` with the
derived structural hash): a no-op when the member is already present. -/
def insertP (p : Plugin) (l : List Plugin) : List Plugin :=
  if p ∈ l then l else l ++ [p]

/-- Removal from the selection set (`HashSet::remove`). -/
def removeP (p : Plugin) (l : List Plugin) : List Plugin :=
  l.filter (fun q => q ≠ p)

/-- Parse every requested identifier and collect into the selection set
(duplicates collapse), as in the first loop of `create`. -/
def parseDedup (ss : List String) : List Plugin :=
  ss.foldl (fun acc s => insertP (Plugin.fromString s) acc) []

/-- Resolution rule: if the static-volume provisioner is selected and the
static-IP switch is set, insert the static-IP provisioner. -/
def resolveStaticIp (requireStaticIpProvisioner : Bool) (s : List Plugin) :
    List Plugin :=
  if Plugin.staticVolumeProvisioner ∈ s ∧ requireStaticIpProvisioner then
    insertP .staticIpProvisioner s
  else s

/-- Resolution rule: pick either anaconda or python (anaconda overrides). -/
def resolveInterpreter (s : List Plugin) : List Plugin :=
  if Plugin.anaconda ∈ s ∧ Plugin.python ∈ s then removeP .python s else s

/-- Resolution rule: an nvidia architecture inserts the nvidia driver
unconditionally. -/
def resolveNvidia (archNvidia : Bool) (s : List Plugin) : List Plugin :=
  if archNvidia then insertP .nvidiaDriver s else s

/-- Resolution rule: a supplied post-init payload inserts the post-init-script
capability (applied after validation in the source, line 640). -/
def resolvePostInit (postInitSome : Bool) (s : List Plugin) : List Plugin :=
  if postInitSome then insertP .postInitScript s else s

/-- The three resolution rules applied before the validation block,
in source order. -/
def resolvePre (archNvidia requireStaticIpProvisioner : Bool)
    (s : List Plugin) : List Plugin :=
  resolveNvidia archNvidia (resolveInterpreter
    (resolveStaticIp requireStaticIpProvisioner s))

/-- The full selection-resolution transform: all four implication/override
rules of `create` in source order (the validation block interleaves between
the third and fourth rule but never mutates the set). -/
def resolveFull (archNvidia requireStaticIpProvisioner postInitSome : Bool)
    (s : List Plugin) : List Plugin :=
  resolvePostInit postInitSome
    (resolvePre archNvidia requireStaticIpProvisioner s)

/-- The validation / generation errors of `create` (each `return Err(..)`). -/
inductive VErr where
  | cfnHelperNeedsPython
  | ecrProviderNeedsGo
  | timeSyncNeedsImds
  | enaNeedsImds
  | cudaToolkitNotNvidiaArch
  | cudaToolkitNeedsDriver
  | cudaToolkitNotNvidiaArchDup
  | containerToolkitNeedsDriver
  | devBarkNeedsSvp
  | devFaissNeedsSvp
  | conflictingPlugins (a b : Plugin)
  | sshEmailMissing
  | unknownPlugin (s : String)
deriving DecidableEq, Repr

/-- The pre-assembly validation rule table of `create` (source lines 516-638),
in source order; returns the first violation found, if any.
The second nvidia-toolkit block (lines 579-600) repeats the
`NvidiaCudaToolkit` membership test of the first block (lines 557-578); its
missing-driver error message names the container toolkit instead. -/
def validate (archNvidia : Bool) (s : List Plugin) : Option VErr :=
  if Plugin.awsCfnHelper ∈ s ∧ Plugin.anaconda ∉ s ∧ Plugin.python ∉ s then
    some .cfnHelperNeedsPython
  else if Plugin.ecrCredentialProvider ∈ s ∧ Plugin.go ∉ s then
    some .ecrProviderNeedsGo
  else if Plugin.timeSync ∈ s ∧ Plugin.imds ∉ s then
    some .timeSyncNeedsImds
  else if Plugin.ena ∈ s ∧ Plugin.imds ∉ s then
    some .enaNeedsImds
  else if Plugin.nvidiaCudaToolkit ∈ s ∧ ¬archNvidia then
    some .cudaToolkitNotNvidiaArch
  else if Plugin.nvidiaCudaToolkit ∈ s ∧ Plugin.nvidiaDriver ∉ s then
    some .cudaToolkitNeedsDriver
  else if Plugin.nvidiaCudaToolkit ∈ s ∧ ¬archNvidia then
    some .cudaToolkitNotNvidiaArchDup
  else if Plugin.nvidiaCudaToolkit ∈ s ∧ Plugin.nvidiaDriver ∉ s then
    some .containerToolkitNeedsDriver
  else if Plugin.devBark ∈ s ∧ Plugin.staticVolumeProvisioner ∉ s then
    some .devBarkNeedsSvp
  else if Plugin.devFaissGpu ∈ s ∧ Plugin.staticVolumeProvisioner ∉ s then
    some .devFaissNeedsSvp
  else if Plugin.eksWorkerNodeAmiScratch ∈ s ∧
      Plugin.eksWorkerNodeAmiReuse ∈ s then
    some (.conflictingPlugins .eksWorkerNodeAmiScratch .eksWorkerNodeAmiReuse)
  else
    none

/-- The text fragments the assembler concatenates.  `gen p` is the fragment
returned by the script generator of plugin `p`; the remaining constructors
are the non-plugin-keyed pieces pushed by `create`. -/
inductive Frag where
  | start
  | gen (p : Plugin)
  | bashProfile
  | awsKey
  | postInitUser
  | sep
  | marker
deriving DecidableEq, Repr

/-- Assembly state of the main generation loop: the contents accumulated so
far and the `updated_bash_profile` one-shot flag. -/
structure AsmSt where
  contents : List Frag
  updatedBashProfile : Bool
deriving DecidableEq, Repr

/-- Append the separator banner and the generated fragment of plugin `p`. -/
def emitGen (st : AsmSt) (p : Plugin) : AsmSt :=
  { st with contents := st.contents ++ [Frag.sep, Frag.gen p] }

/-- Whether `p` belongs to the seven epilogue capabilities skipped by the main
pass (source lines 985-996). -/
def skipP (p : Plugin) : Bool :=
  match p with
  | .amiInfo | .clusterInfo | .postInitScript
  | .cleanupImagePackages | .cleanupImageTmpDir
  | .cleanupImageAwsCredentials | .cleanupImageSshKeys => true
  | _ => false

/-- One arm of the main generation loop of `create` for plugin `p`.  The two
trigger arms (`system-limit-bump`, `static-volume-provisioner`) additionally
emit the one-time bash-profile update; the ssh-key arm checks the email
input; the seven epilogue plugins are skipped; an unknown plugin aborts.
An error carries the assembly state at the abort point. -/
def mainStep (sshKeyEmail : Option String) (st : AsmSt) (p : Plugin) :
    Except (VErr × AsmSt) AsmSt :=
  match p with
  | .systemLimitBump =>
    let st1 := emitGen st .systemLimitBump
    if st1.updatedBashProfile then .ok st1
    else .ok ⟨st1.contents ++ [Frag.sep, Frag.bashProfile], true⟩
  | .staticVolumeProvisioner =>
    let st1 := emitGen st .staticVolumeProvisioner
    if st1.updatedBashProfile then .ok st1
    else .ok ⟨st1.contents ++ [Frag.sep, Frag.bashProfile], true⟩
  | .sshKeyWithEmail =>
    match sshKeyEmail with
    | none => .error (.sshEmailMissing, st)
    | some _ => .ok (emitGen st .sshKeyWithEmail)
  | .amiInfo | .clusterInfo | .postInitScript
  | .cleanupImagePackages | .cleanupImageTmpDir
  | .cleanupImageAwsCredentials | .cleanupImageSshKeys => .ok st
  | .unknown s => .error (.unknownPlugin s, st)
  | q => .ok (emitGen st q)

/-- The main generation pass: fold `mainStep` over the rank-sorted plugin
list, aborting at the first error. -/
def mainPass (sshKeyEmail : Option String) (st : AsmSt) :
    List Plugin → Except (VErr × AsmSt) AsmSt
  | [] => .ok st
  | p :: rest =>
    match mainStep sshKeyEmail st p with
    | .error e => .error e
    | .ok st1 => mainPass sshKeyEmail st1 rest

/-- Append the fragment block `x` when plugin `q` is in the selection
(the shape of every `if plugins_set.contains(..) { push }` epilogue step). -/
def appendIfMem (q : Plugin) (s : List Plugin) (x c : List Frag) :
    List Frag :=
  if q ∈ s then c ++ x else c

/-- The credentials step of the epilogue (source lines 1024-1030): when the
secret key id is supplied, unwrap the access key (panics, i.e. `none`, when
it is absent) and append the credentials-configuration fragment. -/
def epiCred (awsSecretKeyId awsSecretAccessKey : Option String)
    (c : List Frag) : Option (List Frag) :=
  match awsSecretKeyId with
  | none => some c
  | some _ =>
    match awsSecretAccessKey with
    | none => none
    | some _ => some (c ++ [Frag.sep, Frag.awsKey])

/-- The user post-init step of the epilogue (source lines 1049-1053): when
the post-init capability is selected, unwrap the payload (panics, i.e.
`none`, when it is absent) and append the inline post-init block. -/
def epiPost (inSelection : Bool) (postInitScriptTxt : Option String)
    (c : List Frag) : Option (List Frag) :=
  if inSelection then
    match postInitScriptTxt with
    | none => none
    | some _ => some (c ++ [Frag.sep, Frag.postInitUser])
  else some c

/-- The epilogue pass up to (excluding) the completion marker, operating on
the contents after the bash-profile fixup: the credentials fragment, the
ami-info and cluster-info summaries, the user post-init block, and the
first three cleanup fragments, in source order. -/
def epiPre (s : List Plugin)
    (awsSecretKeyId awsSecretAccessKey postInitScriptTxt : Option String)
    (c1 : List Frag) : Option (List Frag) :=
  (epiCred awsSecretKeyId awsSecretAccessKey c1).bind fun c2 =>
    let c3 := appendIfMem .amiInfo s [Frag.sep, Frag.gen .amiInfo] c2
    let c4 := appendIfMem .clusterInfo s [Frag.sep, Frag.gen .clusterInfo] c3
    (epiPost (Plugin.postInitScript ∈ s) postInitScriptTxt c4).bind fun c5 =>
      let c6 := appendIfMem .cleanupImagePackages s
        [Frag.sep, Frag.gen .cleanupImagePackages] c5
      let c7 := appendIfMem .cleanupImageTmpDir s
        [Frag.sep, Frag.gen .cleanupImageTmpDir] c6
      let c8 := appendIfMem .cleanupImageAwsCredentials s
        [Frag.sep, Frag.gen .cleanupImageAwsCredentials] c7
      some c8

/-- The fixed tail of the output: the separator and completion-marker block,
then (only after the marker) the ssh-key cleanup fragment if selected, then
the final separator. -/
def epilogueTail (s : List Plugin) : List Frag :=
  [Frag.sep, Frag.marker] ++
    (if Plugin.cleanupImageSshKeys ∈ s then
      [Frag.sep, Frag.gen .cleanupImageSshKeys] else []) ++
    [Frag.sep]

/-- The rank-ascending sort of the selection (`plugins.sort()` under the
rank-based `Ord` impl). -/
def sortRank (l : List Plugin) : List Plugin :=
  List.insertionSort (fun a b => a.rank ≤ b.rank) l

/-- Result of `create`: a successful return of the ordered plugin list and
the assembled output, an error return (the source discards the accumulated
contents there), or a panic (`unwrap` on `None`). -/
inductive CreateResult where
  | ok (plugins : List Plugin) (contents : List Frag)
  | err (e : VErr)
  | panic
deriving DecidableEq, Repr

/-- The engine: `create` of src/rust/src/ec2/plugins/mod.rs.  Parses and
deduplicates the requested identifiers, applies the resolution rules, runs
the validation table, inserts the post-init capability when a payload is
supplied, sorts by rank, runs the main generation pass starting from the
`scripts::start` preamble, then the epilogue (bash-profile fixup,
credentials, info summaries, post-init, cleanups, marker, ssh-key cleanup).
Context fields that only parameterize fragment text are omitted. -/
def create (archNvidia requireStaticIpProvisioner : Bool)
    (pluginsStr : List String)
    (sshKeyEmail awsSecretKeyId awsSecretAccessKey postInitScriptTxt :
      Option String) : CreateResult :=
  let s3 := resolvePre archNvidia requireStaticIpProvisioner
    (parseDedup pluginsStr)
  match validate archNvidia s3 with
  | some e => .err e
  | none =>
    let s4 := resolvePostInit postInitScriptTxt.isSome s3
    let plugins := sortRank s4
    match mainPass sshKeyEmail ⟨[Frag.start], false⟩ plugins with
    | .error (e, _) => .err e
    | .ok st =>
      let c1 := if st.updatedBashProfile then st.contents
        else st.contents ++ [Frag.sep, Frag.bashProfile]
      match epiPre s4 awsSecretKeyId awsSecretAccessKey postInitScriptTxt c1
        with
      | none => .panic
      | some c8 => .ok plugins (c8 ++ epilogueTail s4)

/-- Number of occurrences of the bash-profile update fragment. -/
def countBP (l : List Frag) : Nat :=
  (l.filter (fun f => f = Frag.bashProfile)).length

/-- The resolved selection set of a `create` invocation (after all four
implication/override rules). -/
def resolvedSet (archNvidia requireStaticIpProvisioner postInitSome : Bool)
    (pluginsStr : List String) : List Plugin :=
  resolveFull archNvidia requireStaticIpProvisioner postInitSome
    (parseDedup pluginsStr)

/-- The canonical string forms of the 49 known capabilities. -/
def knownStrings : List String :=
  Plugin.knownList.map Plugin.asStr

instance : IsTotal Plugin (fun a b => a.rank ≤ b.rank) :=
  ⟨fun a b => Nat.le_total a.rank b.rank⟩

instance : IsTrans Plugin (fun a b => a.rank ≤ b.rank) :=
  ⟨fun _ _ _ => Nat.le_trans⟩

theorem mem_insertP {x p : Plugin} {l : List Plugin} :
    x ∈ insertP p l ↔ x ∈ l ∨ x = p := by
  unfold insertP
  split
  · constructor
    · exact fun h => Or.inl h
    · rintro (h | rfl)
      · exact h
      · assumption
  · simp

theorem insertP_of_mem {p : Plugin} {l : List Plugin} (h : p ∈ l) :
    insertP p l = l := by
  unfold insertP
  exact if_pos h

theorem mem_removeP {x p : Plugin} {l : List Plugin} :
    x ∈ removeP p l ↔ x ∈ l ∧ x ≠ p := by
  unfold removeP
  simp [List.mem_filter]

theorem isKnown_iff_mem (p : Plugin) :
    p.isKnown = true ↔ p ∈ Plugin.knownList := by
  cases p <;> first | decide | simp [Plugin.isKnown, Plugin.knownList]

/-- C4: parsing and printing are mutually inverse: every known capability
round-trips through its canonical string, and every string that is not the
canonical form of a known capability round-trips losslessly through the
extension variant (parsing never fails). -/
theorem claimC4_parse_print_roundtrip :
    (∀ p : Plugin, p.isKnown = true → Plugin.fromString p.asStr = p) ∧
    (∀ s : String, s ∉ knownStrings → (Plugin.fromString s).asStr = s) := by
  constructor
  · intro p h
    cases p <;> first | rfl | simp [Plugin.isKnown] at h
  · intro s h
    have hs : Plugin.fromString s = .unknown s := by
      unfold Plugin.fromString
      split
      all_goals first
        | rfl
        | (exact absurd (by decide) h)
    rw [hs]
    rfl

/-- Witness for C4 at the concrete capability `imds` and the concrete
unrecognized string "my-custom-plugin". -/
theorem claimC4_parse_print_roundtrip_witness :
    Plugin.fromString (Plugin.asStr .imds) = .imds ∧
    (Plugin.fromString "my-custom-plugin").asStr = "my-custom-plugin" :=
  ⟨claimC4_parse_print_roundtrip.1 .imds rfl,
   claimC4_parse_print_roundtrip.2 "my-custom-plugin" (by decide)⟩

/-- C3 counterexample: the rank function is not injective on the known
capabilities: the two distinct members `anaconda` and `python` share
rank 25, so the rank comparison is not a strict total order. -/
theorem claimC3_counterexample :
    Plugin.rank .anaconda = Plugin.rank .python ∧
    Plugin.anaconda ≠ Plugin.python := by
  decide

/-- C3 (amended): the rank function is injective on the known capabilities
except for the single tie between `anaconda` and `python` (both rank 25);
the extension variant has rank `u32::MAX`, strictly above every known
capability, so unknown capabilities always sort last. -/
theorem claimC3_rank_injective_except_tie :
    (∀ p q : Plugin, p.isKnown = true → q.isKnown = true →
      p.rank = q.rank →
      p = q ∨ (p = .anaconda ∧ q = .python) ∨
        (p = .python ∧ q = .anaconda)) ∧
    (∀ p : Plugin, p.isKnown = true →
      ∀ s : String, p.rank < (Plugin.unknown s).rank) := by
  constructor
  · intro p q hp hq h
    exact (by decide :
        ∀ p ∈ Plugin.knownList, ∀ q ∈ Plugin.knownList,
          Plugin.rank p = Plugin.rank q →
          p = q ∨ (p = .anaconda ∧ q = .python) ∨
            (p = .python ∧ q = .anaconda))
      p ((isKnown_iff_mem p).mp hp) q ((isKnown_iff_mem q).mp hq) h
  · intro p hp s
    show p.rank < 4294967295
    exact (by decide : ∀ p ∈ Plugin.knownList, Plugin.rank p < 4294967295)
      p ((isKnown_iff_mem p).mp hp)

/-- Witness for the amended C3 at the concrete pair (anaconda, python) and
at `imds` against the concrete unknown string "x". -/
theorem claimC3_rank_injective_except_tie_witness :
    (Plugin.anaconda = Plugin.python ∨
      (Plugin.anaconda = .anaconda ∧ Plugin.python = .python) ∨
      (Plugin.anaconda = .python ∧ Plugin.python = .anaconda)) ∧
    Plugin.rank .imds < Plugin.rank (.unknown "x") :=
  ⟨claimC3_rank_injective_except_tie.1 .anaconda .python rfl rfl rfl,
   claimC3_rank_injective_except_tie.2 .imds rfl "x"⟩

/-- C9: capability equality (the `PartialEq` impl) is rank equality, so the
two structurally distinct capabilities `anaconda` and `python` (shared rank
25) compare equal even though they parse from and print to different
strings, while the set membership used for deduplication is structural:
a set containing only `anaconda` does not contain `python`, and both can be
members of the same set. -/
theorem claimC9_equality_is_rank_equality :
    Plugin.peq .anaconda .python = true ∧
    Plugin.anaconda ≠ Plugin.python ∧
    Plugin.asStr .anaconda ≠ Plugin.asStr .python ∧
    Plugin.fromString "anaconda" = .anaconda ∧
    Plugin.fromString "python" = .python ∧
    Plugin.python ∉ parseDedup ["anaconda"] ∧
    Plugin.anaconda ∈ parseDedup ["anaconda", "python"] ∧
    Plugin.python ∈ parseDedup ["anaconda", "python"] := by
  decide

theorem mem_resolveStaticIp {x : Plugin} {r : Bool} {s : List Plugin} :
    x ∈ resolveStaticIp r s ↔
      x ∈ s ∨ (x = .staticIpProvisioner ∧
        Plugin.staticVolumeProvisioner ∈ s ∧ r = true) := by
  unfold resolveStaticIp
  split
  · rename_i h
    simp [mem_insertP]
    tauto
  · rename_i h
    simp only [Decidable.not_and_iff_or_not] at h
    constructor
    · exact fun hx => Or.inl hx
    · rintro (hx | ⟨rfl, hsvp, hr⟩)
      · exact hx
      · rcases h with h | h
        · exact absurd hsvp h
        · exact absurd hr h

theorem mem_resolveInterpreter {x : Plugin} {s : List Plugin} :
    x ∈ resolveInterpreter s ↔
      x ∈ s ∧ ¬(x = .python ∧ Plugin.anaconda ∈ s ∧ Plugin.python ∈ s) := by
  unfold resolveInterpreter
  split
  · rename_i h
    simp [mem_removeP]
    tauto
  · rename_i h
    constructor
    · intro hx
      refine ⟨hx, ?_⟩
      rintro ⟨rfl, ha, hp⟩
      exact h ⟨ha, hp⟩
    · exact fun hx => hx.1

theorem mem_resolveNvidia {x : Plugin} {a : Bool} {s : List Plugin} :
    x ∈ resolveNvidia a s ↔ x ∈ s ∨ (x = .nvidiaDriver ∧ a = true) := by
  unfold resolveNvidia
  split
  · rename_i h
    simp [mem_insertP, h]
  · rename_i h
    simp [Bool.not_eq_true] at h
    simp [h]

theorem mem_resolvePostInit {x : Plugin} {p : Bool} {s : List Plugin} :
    x ∈ resolvePostInit p s ↔ x ∈ s ∨ (x = .postInitScript ∧ p = true) := by
  unfold resolvePostInit
  split
  · rename_i h
    simp [mem_insertP, h]
  · rename_i h
    simp [Bool.not_eq_true] at h
    simp [h]

theorem mem_resolveFull {x : Plugin} {a r p : Bool} {s : List Plugin} :
    x ∈ resolveFull a r p s ↔
      ((x ∈ s ∨ (x = .staticIpProvisioner ∧
          Plugin.staticVolumeProvisioner ∈ s ∧ r = true)) ∧
        ¬(x = .python ∧ Plugin.anaconda ∈ s ∧ Plugin.python ∈ s)) ∨
      (x = .nvidiaDriver ∧ a = true) ∨
      (x = .postInitScript ∧ p = true) := by
  unfold resolveFull resolvePre
  rw [mem_resolvePostInit, mem_resolveNvidia, mem_resolveInterpreter,
    mem_resolveStaticIp, mem_resolveStaticIp, mem_resolveStaticIp]
  simp only [show (Plugin.anaconda = Plugin.staticIpProvisioner) = False by simp,
    show (Plugin.python = Plugin.staticIpProvisioner) = False by simp]
  tauto

/-- C5: the selection-resolution transform (parse plus deduplication feed in
as the input set; then the four implication/override rules: static-volume
plus the static-IP switch inserts the static-IP provisioner, anaconda
overrides python, an accelerator architecture inserts the nvidia driver, a
supplied post-init payload inserts the post-init-script capability) is
idempotent: resolving an already-resolved set returns it unchanged, for
every input set and every setting of the switches. -/
theorem claimC5_resolution_idempotent (a r p : Bool) (s : List Plugin) :
    resolveFull a r p (resolveFull a r p s) = resolveFull a r p s := by
  have hsvp : Plugin.staticVolumeProvisioner ∈ resolveFull a r p s ↔
      Plugin.staticVolumeProvisioner ∈ s := by
    rw [mem_resolveFull]; simp
  have hana : Plugin.anaconda ∈ resolveFull a r p s ↔
      Plugin.anaconda ∈ s := by
    rw [mem_resolveFull]; simp
  have hpy : ¬(Plugin.anaconda ∈ resolveFull a r p s ∧
      Plugin.python ∈ resolveFull a r p s) := by
    rintro ⟨ha, hp⟩
    rw [mem_resolveFull] at hp
    simp at hp
    exact hp.2 (hana.mp ha) hp.1
  have h1 : resolveStaticIp r (resolveFull a r p s) = resolveFull a r p s := by
    unfold resolveStaticIp
    split
    · rename_i h
      apply insertP_of_mem
      rw [mem_resolveFull]
      exact Or.inl ⟨Or.inr ⟨rfl, hsvp.mp h.1, h.2⟩, by simp⟩
    · rfl
  have h2 : resolveInterpreter (resolveFull a r p s) = resolveFull a r p s := by
    unfold resolveInterpreter
    split
    · rename_i h
      exact absurd h hpy
    · rfl
  have h3 : resolveNvidia a (resolveFull a r p s) = resolveFull a r p s := by
    unfold resolveNvidia
    split
    · rename_i h
      apply insertP_of_mem
      rw [mem_resolveFull]
      exact Or.inr (Or.inl ⟨rfl, h⟩)
    · rfl
  have h4 : resolvePostInit p (resolveFull a r p s) = resolveFull a r p s := by
    unfold resolvePostInit
    split
    · rename_i h
      apply insertP_of_mem
      rw [mem_resolveFull]
      exact Or.inr (Or.inr ⟨rfl, h⟩)
    · rfl
  calc resolveFull a r p (resolveFull a r p s)
      = resolvePostInit p (resolveNvidia a (resolveInterpreter
          (resolveStaticIp r (resolveFull a r p s)))) := rfl
    _ = resolveFull a r p s := by rw [h1, h2, h3, h4]

theorem mainStep_ok_cases {email : Option String} {st : AsmSt} {p : Plugin}
    {st1 : AsmSt} (h : mainStep email st p = .ok st1) :
    (st1 = st ∧ skipP p = true) ∨
    (st1 = emitGen st p ∧ skipP p = false) ∨
    (st1.contents = st.contents ++
        [Frag.sep, Frag.gen p, Frag.sep, Frag.bashProfile] ∧
      st1.updatedBashProfile = true ∧ st.updatedBashProfile = false ∧
      (p = .systemLimitBump ∨ p = .staticVolumeProvisioner)) := by
  cases p <;>
    first
    | (left; exact ⟨(Except.ok.inj h).symm, rfl⟩)
    | (right; left; exact ⟨(Except.ok.inj h).symm, rfl⟩)
    | skip
  case systemLimitBump =>
    by_cases hf : st.updatedBashProfile = true
    · right; left
      refine ⟨?_, rfl⟩
      have h2 : mainStep email st .systemLimitBump =
          .ok (emitGen st .systemLimitBump) := by
        simp [mainStep, emitGen, hf]
      rw [h2] at h
      exact (Except.ok.inj h).symm
    · right; right
      simp only [Bool.not_eq_true] at hf
      have h2 : mainStep email st .systemLimitBump =
          .ok ⟨(emitGen st .systemLimitBump).contents ++
            [Frag.sep, Frag.bashProfile], true⟩ := by
        simp [mainStep, emitGen, hf]
      rw [h2] at h
      rw [← Except.ok.inj h]
      refine ⟨?_, rfl, hf, Or.inl rfl⟩
      simp [emitGen]
  case staticVolumeProvisioner =>
    by_cases hf : st.updatedBashProfile = true
    · right; left
      refine ⟨?_, rfl⟩
      have h2 : mainStep email st .staticVolumeProvisioner =
          .ok (emitGen st .staticVolumeProvisioner) := by
        simp [mainStep, emitGen, hf]
      rw [h2] at h
      exact (Except.ok.inj h).symm
    · right; right
      simp only [Bool.not_eq_true] at hf
      have h2 : mainStep email st .staticVolumeProvisioner =
          .ok ⟨(emitGen st .staticVolumeProvisioner).contents ++
            [Frag.sep, Frag.bashProfile], true⟩ := by
        simp [mainStep, emitGen, hf]
      rw [h2] at h
      rw [← Except.ok.inj h]
      refine ⟨?_, rfl, hf, Or.inr rfl⟩
      simp [emitGen]
  case sshKeyWithEmail =>
    cases email with
    | none => simp [mainStep] at h
    | some e =>
      right; left
      exact ⟨(Except.ok.inj h).symm, rfl⟩
  case unknown s => simp [mainStep] at h

theorem mainPass_cons {email : Option String} {st st2 : AsmSt} {p : Plugin}
    {rest : List Plugin}
    (h : mainPass email st (p :: rest) = .ok st2) :
    ∃ st1, mainStep email st p = .ok st1 ∧
      mainPass email st1 rest = .ok st2 := by
  unfold mainPass at h
  revert h
  cases hs : mainStep email st p with
  | error e => intro h; exact absurd h (by simp)
  | ok st1 => intro h; exact ⟨st1, rfl, h⟩

theorem sufExt {c x : List Frag} {allowed : Frag → Prop}
    (h : ∃ suf, x = c ++ suf ∧ ∀ f ∈ suf, allowed f)
    (X : List Frag) (hX : ∀ f ∈ X, allowed f) :
    ∃ suf, x ++ X = c ++ suf ∧ ∀ f ∈ suf, allowed f := by
  obtain ⟨suf, rfl, hs⟩ := h
  exact ⟨suf ++ X, by simp, fun f hf =>
    (List.mem_append.mp hf).elim (hs f) (hX f)⟩

theorem mainPass_ok_shape {email : Option String} {st st2 : AsmSt}
    {l : List Plugin} (h : mainPass email st l = .ok st2) :
    ∃ suf, st2.contents = st.contents ++ suf ∧
      ∀ f ∈ suf, f = Frag.sep ∨ f = Frag.bashProfile ∨
        ∃ q, f = Frag.gen q ∧ skipP q = false := by
  induction l generalizing st with
  | nil =>
    have : st = st2 := Except.ok.inj h
    exact ⟨[], by simp [this], by simp⟩
  | cons p rest ih =>
    obtain ⟨st1, hs, hrest⟩ := mainPass_cons h
    obtain ⟨suf1, he1, hm1⟩ : ∃ suf, st1.contents = st.contents ++ suf ∧
        ∀ f ∈ suf, f = Frag.sep ∨ f = Frag.bashProfile ∨
          ∃ q, f = Frag.gen q ∧ skipP q = false := by
      rcases mainStep_ok_cases hs with ⟨rfl, _⟩ | ⟨rfl, hsk⟩ | ⟨hc, _, _, hp⟩
      · exact ⟨[], by simp, by simp⟩
      · refine ⟨[Frag.sep, Frag.gen p], rfl, ?_⟩
        intro f hf
        fin_cases hf
        · exact Or.inl rfl
        · exact Or.inr (Or.inr ⟨p, rfl, hsk⟩)
      · refine ⟨[Frag.sep, Frag.gen p, Frag.sep, Frag.bashProfile], hc, ?_⟩
        have hsk : skipP p = false := by
          rcases hp with rfl | rfl <;> rfl
        intro f hf
        fin_cases hf
        · exact Or.inl rfl
        · exact Or.inr (Or.inr ⟨p, rfl, hsk⟩)
        · exact Or.inl rfl
        · exact Or.inr (Or.inl rfl)
    obtain ⟨suf2, he2, hm2⟩ := ih hrest
    refine ⟨suf1 ++ suf2, ?_, ?_⟩
    · rw [he2, he1, List.append_assoc]
    · intro f hf
      exact (List.mem_append.mp hf).elim (hm1 f) (hm2 f)

theorem countBP_append (a b : List Frag) :
    countBP (a ++ b) = countBP a + countBP b := by
  simp [countBP, List.filter_append]

theorem mainStep_flag {email : Option String} {st st1 : AsmSt} {p : Plugin}
    (h : mainStep email st p = .ok st1)
    (hp1 : p ≠ .systemLimitBump) (hp2 : p ≠ .staticVolumeProvisioner) :
    st1.updatedBashProfile = st.updatedBashProfile := by
  rcases mainStep_ok_cases h with ⟨rfl, _⟩ | ⟨rfl, _⟩ | ⟨_, _, _, hp⟩
  · rfl
  · simp [emitGen]
  · rcases hp with rfl | rfl
    · exact absurd rfl hp1
    · exact absurd rfl hp2

theorem mainPass_inv {email : Option String} {st st2 : AsmSt}
    {l : List Plugin} (h : mainPass email st l = .ok st2)
    (hI : countBP st.contents = cond st.updatedBashProfile 1 0) :
    countBP st2.contents = cond st2.updatedBashProfile 1 0 := by
  induction l generalizing st with
  | nil =>
    have : st = st2 := Except.ok.inj h
    rw [← this]; exact hI
  | cons p rest ih =>
    obtain ⟨st1, hs, hrest⟩ := mainPass_cons h
    refine ih hrest ?_
    rcases mainStep_ok_cases hs with ⟨rfl, _⟩ | ⟨rfl, _⟩ | ⟨hc, h1, h0, _⟩
    · exact hI
    · simpa [emitGen, countBP_append, countBP] using hI
    · rw [hc, h1, countBP_append, hI, h0]
      simp [countBP]

theorem mainStep_trigger {email : Option String} {st : AsmSt} {t : Plugin}
    (ht : t = .systemLimitBump ∨ t = .staticVolumeProvisioner)
    (hf : st.updatedBashProfile = false) :
    mainStep email st t = .ok ⟨st.contents ++ [Frag.sep, Frag.gen t] ++
      [Frag.sep, Frag.bashProfile], true⟩ := by
  rcases ht with rfl | rfl <;> simp [mainStep, emitGen, hf]

theorem mainPass_trigger_seg {email : Option String} {l : List Plugin}
    {st st2 : AsmSt}
    (hsort : l.Pairwise (fun a b => a.rank ≤ b.rank))
    (hf : st.updatedBashProfile = false)
    (h : mainPass email st l = .ok st2) :
    ∀ t, (t = Plugin.systemLimitBump ∨ t = Plugin.staticVolumeProvisioner) →
    t ∈ l →
    (∀ u, (u = Plugin.systemLimitBump ∨ u = Plugin.staticVolumeProvisioner) →
      u ∈ l → t.rank ≤ u.rank) →
    ∃ pre post, st2.contents =
      pre ++ [Frag.gen t, Frag.sep, Frag.bashProfile] ++ post := by
  induction l generalizing st with
  | nil => intro t _ hmem _; cases hmem
  | cons p rest ih =>
    intro t ht hmem hmin
    obtain ⟨st1, hs, hrest⟩ := mainPass_cons h
    by_cases hpt : p = t
    · subst hpt
      rw [mainStep_trigger ht hf] at hs
      have hst1 := Except.ok.inj hs
      obtain ⟨suf, he, _⟩ := mainPass_ok_shape hrest
      rw [← hst1] at he
      refine ⟨st.contents ++ [Frag.sep], suf, ?_⟩
      rw [he]
      simp
    · have hpnt : ¬(p = Plugin.systemLimitBump ∨
          p = Plugin.staticVolumeProvisioner) := by
        intro hp
        have h1 : t.rank ≤ p.rank := hmin p hp (List.mem_cons_self p rest)
        have htrest : t ∈ rest := by
          rcases List.mem_cons.mp hmem with rfl | hm
          · exact absurd rfl hpt
          · exact hm
        have h2 : p.rank ≤ t.rank := (List.pairwise_cons.mp hsort).1 t htrest
        have heq : p.rank = t.rank := Nat.le_antisymm h2 h1
        rcases hp with rfl | rfl <;> rcases ht with rfl | rfl
        · exact hpt rfl
        · exact absurd heq (by decide)
        · exact absurd heq (by decide)
        · exact hpt rfl
      have hflag : st1.updatedBashProfile = false := by
        rw [mainStep_flag hs (fun hh => hpnt (Or.inl hh))
          (fun hh => hpnt (Or.inr hh))]
        exact hf
      have htrest : t ∈ rest := by
        rcases List.mem_cons.mp hmem with rfl | hm
        · exact absurd rfl hpt
        · exact hm
      exact ih (List.pairwise_cons.mp hsort).2 hflag hrest t ht htrest
        (fun u hu humem => hmin u hu (List.mem_cons_of_mem p humem))

theorem mainPass_noTrigger_flag {email : Option String} {l : List Plugin}
    {st st2 : AsmSt}
    (h1 : Plugin.systemLimitBump ∉ l)
    (h2 : Plugin.staticVolumeProvisioner ∉ l)
    (h : mainPass email st l = .ok st2) :
    st2.updatedBashProfile = st.updatedBashProfile := by
  induction l generalizing st with
  | nil =>
    have : st = st2 := Except.ok.inj h
    rw [← this]
  | cons p rest ih =>
    obtain ⟨st1, hs, hrest⟩ := mainPass_cons h
    have e1 := ih (fun hm => h1 (List.mem_cons_of_mem p hm))
      (fun hm => h2 (List.mem_cons_of_mem p hm)) hrest
    have e2 := mainStep_flag hs
      (fun hh => h1 (hh ▸ List.mem_cons_self p rest))
      (fun hh => h2 (hh ▸ List.mem_cons_self p rest))
    rw [e1, e2]

theorem mainPass_ssh_email {email : Option String} {l : List Plugin}
    {st st2 : AsmSt} (h : mainPass email st l = .ok st2)
    (hm : Plugin.sshKeyWithEmail ∈ l) : email ≠ none := by
  induction l generalizing st with
  | nil => cases hm
  | cons p rest ih =>
    obtain ⟨st1, hs, hrest⟩ := mainPass_cons h
    rcases List.mem_cons.mp hm with rfl | hm2
    · cases email with
      | none => simp [mainStep] at hs
      | some e => simp
    · exact ih hrest hm2

theorem sufTrans {c cc c5 : List Frag} {allowed : Frag → Prop}
    (h1 : ∃ suf, cc = c ++ suf ∧ ∀ f ∈ suf, allowed f)
    (h2 : ∃ suf, c5 = cc ++ suf ∧ ∀ f ∈ suf, allowed f) :
    ∃ suf, c5 = c ++ suf ∧ ∀ f ∈ suf, allowed f := by
  obtain ⟨s1, rfl, m1⟩ := h1
  obtain ⟨s2, rfl, m2⟩ := h2
  exact ⟨s1 ++ s2, by simp, fun f hf =>
    (List.mem_append.mp hf).elim (m1 f) (m2 f)⟩

theorem appendIfMem_shape {allowed : Frag → Prop} (q : Plugin)
    (s : List Plugin) (x c : List Frag) (hx : ∀ f ∈ x, allowed f) :
    ∃ suf, appendIfMem q s x c = c ++ suf ∧ ∀ f ∈ suf, allowed f := by
  unfold appendIfMem
  split
  · exact ⟨x, rfl, hx⟩
  · exact ⟨[], by simp, by simp⟩

theorem epiCred_shape {k a : Option String} {c c2 : List Frag}
    (h : epiCred k a c = some c2) :
    ∃ suf, c2 = c ++ suf ∧ ∀ f ∈ suf,
      f = Frag.sep ∨ f = Frag.awsKey := by
  cases k with
  | none =>
    refine ⟨[], ?_, by simp⟩
    have : some c = some c2 := h
    simp [Option.some.inj this]
  | some v =>
    cases a with
    | none => exact absurd h (by simp [epiCred])
    | some w =>
      refine ⟨[Frag.sep, Frag.awsKey], ?_, ?_⟩
      · have : some (c ++ [Frag.sep, Frag.awsKey]) = some c2 := h
        simp [Option.some.inj this]
      · intro f hf
        fin_cases hf
        · exact Or.inl rfl
        · exact Or.inr rfl

theorem epiPost_shape {b : Bool} {p : Option String} {c c2 : List Frag}
    (h : epiPost b p c = some c2) :
    ∃ suf, c2 = c ++ suf ∧ ∀ f ∈ suf,
      f = Frag.sep ∨ f = Frag.postInitUser := by
  cases b with
  | false =>
    refine ⟨[], ?_, by simp⟩
    have : some c = some c2 := h
    simp [Option.some.inj this]
  | true =>
    cases p with
    | none => exact absurd h (by simp [epiPost])
    | some v =>
      refine ⟨[Frag.sep, Frag.postInitUser], ?_, ?_⟩
      · have : some (c ++ [Frag.sep, Frag.postInitUser]) = some c2 := h
        simp [Option.some.inj this]
      · intro f hf
        fin_cases hf
        · exact Or.inl rfl
        · exact Or.inr rfl

theorem epiPre_shape {s : List Plugin} {k a p : Option String}
    {c c8 : List Frag} (h : epiPre s k a p c = some c8) :
    ∃ suf, c8 = c ++ suf ∧ ∀ f ∈ suf,
      f = Frag.sep ∨ f = Frag.awsKey ∨ f = Frag.postInitUser ∨
      f = Frag.gen .amiInfo ∨ f = Frag.gen .clusterInfo ∨
      f = Frag.gen .cleanupImagePackages ∨
      f = Frag.gen .cleanupImageTmpDir ∨
      f = Frag.gen .cleanupImageAwsCredentials := by
  unfold epiPre at h
  obtain ⟨c2, hc2, h2⟩ := Option.bind_eq_some.mp h
  dsimp only [] at h2
  obtain ⟨c5, hc5, h5⟩ := Option.bind_eq_some.mp h2
  have hc8 := Option.some.inj h5
  have base : ∃ suf, c2 = c ++ suf ∧ ∀ f ∈ suf,
      f = Frag.sep ∨ f = Frag.awsKey ∨ f = Frag.postInitUser ∨
      f = Frag.gen .amiInfo ∨ f = Frag.gen .clusterInfo ∨
      f = Frag.gen .cleanupImagePackages ∨
      f = Frag.gen .cleanupImageTmpDir ∨
      f = Frag.gen .cleanupImageAwsCredentials := by
    obtain ⟨suf, he, hm⟩ := epiCred_shape hc2
    exact ⟨suf, he, fun f hf => by
      rcases hm f hf with rfl | rfl
      · exact Or.inl rfl
      · exact Or.inr (Or.inl rfl)⟩
  have l3 := sufTrans base (appendIfMem_shape .amiInfo s
    [Frag.sep, Frag.gen .amiInfo] c2 (by
      intro f hf
      fin_cases hf
      · exact Or.inl rfl
      · exact Or.inr (Or.inr (Or.inr (Or.inl rfl)))))
  have l4 := sufTrans l3 (appendIfMem_shape .clusterInfo s
    [Frag.sep, Frag.gen .clusterInfo] _ (by
      intro f hf
      fin_cases hf
      · exact Or.inl rfl
      · exact Or.inr (Or.inr (Or.inr (Or.inr (Or.inl rfl))))))
  have l5 : ∃ suf, c5 = c ++ suf ∧ ∀ f ∈ suf,
      f = Frag.sep ∨ f = Frag.awsKey ∨ f = Frag.postInitUser ∨
      f = Frag.gen .amiInfo ∨ f = Frag.gen .clusterInfo ∨
      f = Frag.gen .cleanupImagePackages ∨
      f = Frag.gen .cleanupImageTmpDir ∨
      f = Frag.gen .cleanupImageAwsCredentials := by
    refine sufTrans l4 ?_
    obtain ⟨suf, he, hm⟩ := epiPost_shape hc5
    exact ⟨suf, he, fun f hf => by
      rcases hm f hf with rfl | rfl
      · exact Or.inl rfl
      · exact Or.inr (Or.inr (Or.inl rfl))⟩
  have l6 := sufTrans l5 (appendIfMem_shape .cleanupImagePackages s
    [Frag.sep, Frag.gen .cleanupImagePackages] _ (by
      intro f hf
      fin_cases hf
      · exact Or.inl rfl
      · exact Or.inr (Or.inr (Or.inr (Or.inr (Or.inr (Or.inl rfl)))))))
  have l7 := sufTrans l6 (appendIfMem_shape .cleanupImageTmpDir s
    [Frag.sep, Frag.gen .cleanupImageTmpDir] _ (by
      intro f hf
      fin_cases hf
      · exact Or.inl rfl
      · exact Or.inr (Or.inr (Or.inr (Or.inr (Or.inr (Or.inr (Or.inl rfl))))))))
  have l8 := sufTrans l7 (appendIfMem_shape .cleanupImageAwsCredentials s
    [Frag.sep, Frag.gen .cleanupImageAwsCredentials] _ (by
      intro f hf
      fin_cases hf
      · exact Or.inl rfl
      · exact Or.inr (Or.inr (Or.inr (Or.inr (Or.inr (Or.inr (Or.inr rfl))))))))
  rw [← hc8]
  exact l8

theorem mem_appendIfMem_of_mem {f : Frag} {q : Plugin} {s : List Plugin}
    {x c : List Frag} (h : f ∈ c) : f ∈ appendIfMem q s x c := by
  unfold appendIfMem
  split
  · exact List.mem_append_left _ h
  · exact h

theorem mem_appendIfMem_self {f : Frag} {q : Plugin} {s : List Plugin}
    {x c : List Frag} (hq : q ∈ s) (hf : f ∈ x) :
    f ∈ appendIfMem q s x c := by
  unfold appendIfMem
  rw [if_pos hq]
  exact List.mem_append_right _ hf

theorem epiPre_mem_packages {s : List Plugin} {k a p : Option String}
    {c c8 : List Frag} (h : epiPre s k a p c = some c8)
    (hin : Plugin.cleanupImagePackages ∈ s) :
    Frag.gen .cleanupImagePackages ∈ c8 := by
  unfold epiPre at h
  obtain ⟨c2, hc2, h2⟩ := Option.bind_eq_some.mp h
  dsimp only [] at h2
  obtain ⟨c5, hc5, h5⟩ := Option.bind_eq_some.mp h2
  have hc8 := Option.some.inj h5
  rw [← hc8]
  exact mem_appendIfMem_of_mem (mem_appendIfMem_of_mem
    (mem_appendIfMem_self hin (by simp)))

theorem create_ok_inv {archNvidia requireStaticIpProvisioner : Bool}
    {pluginsStr : List String}
    {sshKeyEmail awsSecretKeyId awsSecretAccessKey postInitScriptTxt :
      Option String} {pl : List Plugin} {out : List Frag}
    (h : create archNvidia requireStaticIpProvisioner pluginsStr sshKeyEmail
      awsSecretKeyId awsSecretAccessKey postInitScriptTxt = .ok pl out) :
    validate archNvidia (resolvePre archNvidia requireStaticIpProvisioner
      (parseDedup pluginsStr)) = none ∧
    ∃ st, mainPass sshKeyEmail ⟨[Frag.start], false⟩
        (sortRank (resolvedSet archNvidia requireStaticIpProvisioner
          postInitScriptTxt.isSome pluginsStr)) = .ok st ∧
      pl = sortRank (resolvedSet archNvidia requireStaticIpProvisioner
        postInitScriptTxt.isSome pluginsStr) ∧
      ∃ c8, epiPre (resolvedSet archNvidia requireStaticIpProvisioner
          postInitScriptTxt.isSome pluginsStr)
          awsSecretKeyId awsSecretAccessKey postInitScriptTxt
          (if st.updatedBashProfile then st.contents
            else st.contents ++ [Frag.sep, Frag.bashProfile]) = some c8 ∧
        out = c8 ++ epilogueTail (resolvedSet archNvidia
          requireStaticIpProvisioner postInitScriptTxt.isSome pluginsStr) := by
  unfold create at h
  cases hv : validate archNvidia (resolvePre archNvidia
      requireStaticIpProvisioner (parseDedup pluginsStr)) with
  | some e =>
    simp only [hv] at h
    simp at h
  | none =>
    cases hm : mainPass sshKeyEmail ⟨[Frag.start], false⟩
        (sortRank (resolvePostInit postInitScriptTxt.isSome
          (resolvePre archNvidia requireStaticIpProvisioner
            (parseDedup pluginsStr)))) with
    | error e =>
      cases e
      simp only [hv, hm] at h
      simp at h
    | ok st =>
      cases hp : epiPre (resolvePostInit postInitScriptTxt.isSome
          (resolvePre archNvidia requireStaticIpProvisioner
            (parseDedup pluginsStr)))
          awsSecretKeyId awsSecretAccessKey postInitScriptTxt
          (if st.updatedBashProfile then st.contents
            else st.contents ++ [Frag.sep, Frag.bashProfile]) with
      | none =>
        simp only [hv, hm, hp] at h
        simp at h
      | some c8 =>
        simp only [hv, hm, hp] at h
        have h2 := CreateResult.ok.inj h
        exact ⟨rfl, st, hm, h2.1.symm, c8, hp, h2.2.symm⟩

theorem epiCred_isSome {k a : Option String} {c : List Frag}
    (h : k.isSome → a.isSome) : (epiCred k a c).isSome := by
  cases k with
  | none => simp [epiCred]
  | some v =>
    cases ha : a with
    | none =>
      have := h rfl
      rw [ha] at this
      simp at this
    | some w => simp [epiCred]

theorem epiPost_isSome {b : Bool} {p : Option String} {c : List Frag}
    (h : b = true → p.isSome) : (epiPost b p c).isSome := by
  cases b with
  | false => simp [epiPost]
  | true =>
    cases hp : p with
    | none =>
      have := h rfl
      rw [hp] at this
      simp at this
    | some v => simp [epiPost]

theorem epiPre_isSome {s : List Plugin} {k a p : Option String}
    {c : List Frag} (h1 : k.isSome → a.isSome)
    (h2 : Plugin.postInitScript ∈ s → p.isSome) :
    (epiPre s k a p c).isSome := by
  unfold epiPre
  obtain ⟨c2, hc2⟩ := Option.isSome_iff_exists.mp (epiCred_isSome (c := c) h1)
  rw [hc2]
  simp only [Option.some_bind]
  obtain ⟨c5, hc5⟩ := Option.isSome_iff_exists.mp
    (epiPost_isSome (c := appendIfMem .clusterInfo s
        [Frag.sep, Frag.gen .clusterInfo]
        (appendIfMem .amiInfo s [Frag.sep, Frag.gen .amiInfo] c2))
      (by
        intro hb
        exact h2 (of_decide_eq_true hb)))
  rw [hc5]
  simp

theorem mem_resolvePre_postInit {a r : Bool} {s0 : List Plugin}
    (h : Plugin.postInitScript ∈ resolvePre a r s0) :
    Plugin.postInitScript ∈ s0 := by
  unfold resolvePre at h
  rcases mem_resolveNvidia.mp h with h4 | ⟨heq, _⟩
  · rcases (mem_resolveInterpreter.mp h4).1 with h5
    rcases mem_resolveStaticIp.mp h5 with h6 | ⟨heq, _⟩
    · exact h6
    · exact absurd heq (by decide)
  · exact absurd heq (by decide)

/-- C10: create is panic-free exactly under two unstated preconditions: the
access key must accompany the secret key id, and a post-init payload must
accompany the post-init-script capability when it is requested by name.
Concretely, create with a secret key id but no access key panics (the unwrap
of line 1025), and create with the post-init-script identifier but no
payload panics (the unwrap of line 1052). -/
theorem claimC10_panic_freedom :
    (∀ (archNvidia requireStaticIpProvisioner : Bool)
      (pluginsStr : List String)
      (sshKeyEmail awsSecretKeyId awsSecretAccessKey postInitScriptTxt :
        Option String),
      (awsSecretKeyId.isSome → awsSecretAccessKey.isSome) →
      (Plugin.postInitScript ∈ parseDedup pluginsStr →
        postInitScriptTxt.isSome) →
      create archNvidia requireStaticIpProvisioner pluginsStr sshKeyEmail
        awsSecretKeyId awsSecretAccessKey postInitScriptTxt ≠ .panic) ∧
    create false false [] none (some "AKIAEXAMPLE") none none = .panic ∧
    create false false ["post-init-script"] none none none none = .panic := by
  refine ⟨?_, by decide, by decide⟩
  intro archNvidia requireStaticIpProvisioner pluginsStr sshKeyEmail
    awsSecretKeyId awsSecretAccessKey postInitScriptTxt hka hpi h
  unfold create at h
  revert h
  cases hv : validate archNvidia (resolvePre archNvidia
      requireStaticIpProvisioner (parseDedup pluginsStr)) with
  | some e => intro h; simp only [hv] at h; simp at h
  | none =>
    cases hm : mainPass sshKeyEmail ⟨[Frag.start], false⟩
        (sortRank (resolvePostInit postInitScriptTxt.isSome
          (resolvePre archNvidia requireStaticIpProvisioner
            (parseDedup pluginsStr)))) with
    | error e =>
      intro h
      cases e
      simp only [hv, hm] at h
      simp at h
    | ok st =>
      intro h
      simp only [hv, hm] at h
      have hsome : (epiPre (resolvePostInit postInitScriptTxt.isSome
          (resolvePre archNvidia requireStaticIpProvisioner
            (parseDedup pluginsStr)))
          awsSecretKeyId awsSecretAccessKey postInitScriptTxt
          (if st.updatedBashProfile = true then st.contents
            else st.contents ++ [Frag.sep, Frag.bashProfile])).isSome := by
        refine epiPre_isSome hka ?_
        intro hmem
        rcases mem_resolvePostInit.mp hmem with hm2 | ⟨_, hp⟩
        · exact hpi (mem_resolvePre_postInit hm2)
        · exact hp
      obtain ⟨c8, hc8⟩ := Option.isSome_iff_exists.mp hsome
      rw [hc8] at h
      simp at h

theorem validate_isSome_of_conflict {arch : Bool} {S : List Plugin}
    (h1 : Plugin.eksWorkerNodeAmiScratch ∈ S)
    (h2 : Plugin.eksWorkerNodeAmiReuse ∈ S) :
    (validate arch S).isSome = true := by
  unfold validate
  split_ifs
  all_goals first | exact absurd (And.intro h1 h2) (by assumption) | simp

theorem validate_conflict_eq {arch : Bool} {S : List Plugin}
    (h1 : Plugin.eksWorkerNodeAmiScratch ∈ S)
    (h2 : Plugin.eksWorkerNodeAmiReuse ∈ S)
    (hn1 : ¬(Plugin.awsCfnHelper ∈ S ∧ Plugin.anaconda ∉ S ∧
      Plugin.python ∉ S))
    (hn2 : ¬(Plugin.ecrCredentialProvider ∈ S ∧ Plugin.go ∉ S))
    (hn3 : ¬(Plugin.timeSync ∈ S ∧ Plugin.imds ∉ S))
    (hn4 : ¬(Plugin.ena ∈ S ∧ Plugin.imds ∉ S))
    (hn5 : ¬(Plugin.nvidiaCudaToolkit ∈ S ∧ ¬arch = true))
    (hn6 : ¬(Plugin.nvidiaCudaToolkit ∈ S ∧ Plugin.nvidiaDriver ∉ S))
    (hn7 : ¬(Plugin.devBark ∈ S ∧ Plugin.staticVolumeProvisioner ∉ S))
    (hn8 : ¬(Plugin.devFaissGpu ∈ S ∧ Plugin.staticVolumeProvisioner ∉ S)) :
    validate arch S = some (.conflictingPlugins .eksWorkerNodeAmiScratch
      .eksWorkerNodeAmiReuse) := by
  unfold validate
  rw [if_neg hn1, if_neg hn2, if_neg hn3, if_neg hn4, if_neg hn5, if_neg hn6,
    if_neg hn5, if_neg hn6, if_neg hn7, if_neg hn8, if_pos ⟨h1, h2⟩]

theorem mem_resolvePostInit_elim {x : Plugin} {b : Bool} {s : List Plugin}
    (hx : x ≠ .postInitScript) (h : x ∈ resolvePostInit b s) : x ∈ s := by
  rcases mem_resolvePostInit.mp h with h2 | ⟨heq, _⟩
  · exact h2
  · exact absurd heq hx

theorem create_err_of_validate {archNvidia requireStaticIpProvisioner : Bool}
    {pluginsStr : List String}
    {sshKeyEmail awsSecretKeyId awsSecretAccessKey postInitScriptTxt :
      Option String} {e : VErr}
    (h : validate archNvidia (resolvePre archNvidia
      requireStaticIpProvisioner (parseDedup pluginsStr)) = some e) :
    create archNvidia requireStaticIpProvisioner pluginsStr sshKeyEmail
      awsSecretKeyId awsSecretAccessKey postInitScriptTxt = .err e := by
  unfold create
  simp only [h]

/-- C7 (amended): selecting both the build-from-scratch and the reuse
machine-image capabilities always makes create fail (an error return
carries no output text), and whenever no earlier rule of the validation
table is violated — the table is checked in order and its conflict rule
comes last — the error is exactly the conflict error naming the two
capabilities. -/
theorem claimC7_ami_conflict :
    ∀ (archNvidia requireStaticIpProvisioner : Bool)
      (pluginsStr : List String)
      (sshKeyEmail awsSecretKeyId awsSecretAccessKey postInitScriptTxt :
        Option String),
    Plugin.eksWorkerNodeAmiScratch ∈ resolvedSet archNvidia
      requireStaticIpProvisioner postInitScriptTxt.isSome pluginsStr →
    Plugin.eksWorkerNodeAmiReuse ∈ resolvedSet archNvidia
      requireStaticIpProvisioner postInitScriptTxt.isSome pluginsStr →
    (∃ e, create archNvidia requireStaticIpProvisioner pluginsStr sshKeyEmail
      awsSecretKeyId awsSecretAccessKey postInitScriptTxt = .err e) ∧
    (∀ S, S = resolvePre archNvidia requireStaticIpProvisioner
        (parseDedup pluginsStr) →
      ¬(Plugin.awsCfnHelper ∈ S ∧ Plugin.anaconda ∉ S ∧
        Plugin.python ∉ S) →
      ¬(Plugin.ecrCredentialProvider ∈ S ∧ Plugin.go ∉ S) →
      ¬(Plugin.timeSync ∈ S ∧ Plugin.imds ∉ S) →
      ¬(Plugin.ena ∈ S ∧ Plugin.imds ∉ S) →
      ¬(Plugin.nvidiaCudaToolkit ∈ S ∧ ¬archNvidia = true) →
      ¬(Plugin.nvidiaCudaToolkit ∈ S ∧ Plugin.nvidiaDriver ∉ S) →
      ¬(Plugin.devBark ∈ S ∧ Plugin.staticVolumeProvisioner ∉ S) →
      ¬(Plugin.devFaissGpu ∈ S ∧ Plugin.staticVolumeProvisioner ∉ S) →
      create archNvidia requireStaticIpProvisioner pluginsStr sshKeyEmail
        awsSecretKeyId awsSecretAccessKey postInitScriptTxt =
        .err (.conflictingPlugins .eksWorkerNodeAmiScratch
          .eksWorkerNodeAmiReuse)) := by
  intro archNvidia requireStaticIpProvisioner pluginsStr sshKeyEmail
    awsSecretKeyId awsSecretAccessKey postInitScriptTxt h1 h2
  have h1s : Plugin.eksWorkerNodeAmiScratch ∈ resolvePre archNvidia
      requireStaticIpProvisioner (parseDedup pluginsStr) :=
    mem_resolvePostInit_elim (by decide) h1
  have h2s : Plugin.eksWorkerNodeAmiReuse ∈ resolvePre archNvidia
      requireStaticIpProvisioner (parseDedup pluginsStr) :=
    mem_resolvePostInit_elim (by decide) h2
  constructor
  · obtain ⟨e, he⟩ := Option.isSome_iff_exists.mp
      (validate_isSome_of_conflict h1s h2s)
    exact ⟨e, create_err_of_validate he⟩
  · rintro S rfl hn1 hn2 hn3 hn4 hn5 hn6 hn7 hn8
    exact create_err_of_validate
      (validate_conflict_eq h1s h2s hn1 hn2 hn3 hn4 hn5 hn6 hn7 hn8)

/-- Witness for C7 at the concrete request containing exactly the two
conflicting identifiers. -/
theorem claimC7_ami_conflict_witness :
    create false false
      ["eks-worker-node-ami-scratch", "eks-worker-node-ami-reuse"]
      none none none none =
      .err (.conflictingPlugins .eksWorkerNodeAmiScratch
        .eksWorkerNodeAmiReuse) :=
  (claimC7_ami_conflict false false
      ["eks-worker-node-ami-scratch", "eks-worker-node-ami-reuse"]
      none none none none (by decide) (by decide)).2
    _ rfl (by decide) (by decide) (by decide) (by decide) (by decide)
    (by decide) (by decide) (by decide)

/-- C8 counterexample: the nvidia-container-toolkit capability is never
validated: with a non-accelerator architecture and neither the driver nor
the cuda toolkit selected, create succeeds on a selection containing only
nvidia-container-toolkit, where the claim demands an architecture or
missing-driver validation failure. -/
theorem claimC8_counterexample :
    create false false ["nvidia-container-toolkit"] none none none none =
      .ok [Plugin.nvidiaContainerToolkit]
        [Frag.start, Frag.sep, Frag.gen .nvidiaContainerToolkit, Frag.sep,
         Frag.bashProfile, Frag.sep, Frag.marker, Frag.sep] := by
  decide

set_option maxHeartbeats 2000000 in
/-- C8 (amended): only the nvidia-cuda-toolkit capability is
architecture-and-driver gated: validation passing implies the architecture
is nvidia and the driver capability is present whenever cuda-toolkit is
selected.  The second, copy-pasted gate block (source lines 579-600) is
keyed on cuda-toolkit again, so it is dead code: its two errors (one of
which names the container toolkit) can never be returned, and the
nvidia-container-toolkit capability is validated by no rule at all (a
selection of only that capability on a non-nvidia architecture passes). -/
theorem claimC8_gpu_gate_amended :
    (∀ (arch : Bool) (S : List Plugin), validate arch S = none →
      Plugin.nvidiaCudaToolkit ∈ S →
      arch = true ∧ Plugin.nvidiaDriver ∈ S) ∧
    (∀ (arch : Bool) (S : List Plugin),
      validate arch S ≠ some .cudaToolkitNotNvidiaArchDup ∧
      validate arch S ≠ some .containerToolkitNeedsDriver) ∧
    validate false [Plugin.nvidiaContainerToolkit] = none := by
  refine ⟨?_, ?_, by decide⟩
  · intro arch S h hmem
    unfold validate at h
    split_ifs at h with h1 h2 h3 h4 h5 h6 h7 h8 h9
    constructor
    · cases harch : arch with
      | false => exact absurd ⟨hmem, by simp [harch]⟩ h5
      | true => rfl
    · by_contra hd
      exact h6 ⟨hmem, hd⟩
  · intro arch S
    constructor <;> intro hEq <;>
      (unfold validate at hEq; split_ifs at hEq <;> simp at hEq)

/-- Witness for the amended C8 at a concrete passing selection containing
the cuda toolkit with an nvidia architecture and the driver present. -/
theorem claimC8_gpu_gate_amended_witness :
    true = true ∧
    Plugin.nvidiaDriver ∈ [Plugin.nvidiaCudaToolkit, Plugin.nvidiaDriver] :=
  claimC8_gpu_gate_amended.1 true
    [Plugin.nvidiaCudaToolkit, Plugin.nvidiaDriver] (by decide) (by decide)

/-- C2 counterexample: the input-presence check for ssh-key-with-email runs
inside the main generation loop, not before assembly: on the request
`[imds, ssh-key-with-email]` with no email, create returns the
missing-email error, yet at the moment the error is detected the loop state
already contains the fragment produced by the imds generator — a fragment
generator was invoked before this validation error was detected, refuting
the claim as stated (the discarded partial contents are the second
component of the loop error). -/
theorem claimC2_counterexample :
    create false false ["imds", "ssh-key-with-email"] none none none none =
      .err .sshEmailMissing ∧
    mainPass none ⟨[Frag.start], false⟩
      (sortRank (resolvedSet false false false
        ["imds", "ssh-key-with-email"])) =
      .error (.sshEmailMissing,
        ⟨[Frag.start, Frag.sep, Frag.gen .imds], false⟩) := by
  constructor
  · decide
  · rfl

/-- C2 (amended): every rule of the pre-assembly validation table aborts
create before any assembly state exists, returning exactly that error and
no output; the ssh-key-with-email input-presence error, by contrast, is
detected only during the main generation pass (after the generators of
lower-ranked selected capabilities have run), but still makes create fail,
so create never returns output text with the capability selected and the
email absent — all-or-nothing is preserved, the claimed before-any-generator
detection order is not. -/
theorem claimC2_validation_abort_amended :
    (∀ (archNvidia requireStaticIpProvisioner : Bool)
      (pluginsStr : List String)
      (sshKeyEmail awsSecretKeyId awsSecretAccessKey postInitScriptTxt :
        Option String) (e : VErr),
      validate archNvidia (resolvePre archNvidia requireStaticIpProvisioner
        (parseDedup pluginsStr)) = some e →
      create archNvidia requireStaticIpProvisioner pluginsStr sshKeyEmail
        awsSecretKeyId awsSecretAccessKey postInitScriptTxt = .err e) ∧
    (∀ (archNvidia requireStaticIpProvisioner : Bool)
      (pluginsStr : List String)
      (awsSecretKeyId awsSecretAccessKey postInitScriptTxt : Option String)
      (pl : List Plugin) (out : List Frag),
      Plugin.sshKeyWithEmail ∈ resolvedSet archNvidia
        requireStaticIpProvisioner postInitScriptTxt.isSome pluginsStr →
      create archNvidia requireStaticIpProvisioner pluginsStr none
        awsSecretKeyId awsSecretAccessKey postInitScriptTxt ≠
        .ok pl out) := by
  constructor
  · intro archNvidia requireStaticIpProvisioner pluginsStr sshKeyEmail
      awsSecretKeyId awsSecretAccessKey postInitScriptTxt e h
    exact create_err_of_validate h
  · intro archNvidia requireStaticIpProvisioner pluginsStr
      awsSecretKeyId awsSecretAccessKey postInitScriptTxt pl out hmem h
    obtain ⟨-, st, hm, -, -⟩ := create_ok_inv h
    exact mainPass_ssh_email hm
      ((List.mem_insertionSort _).mpr hmem) rfl

/-- Witness for the amended C2: the time-sync-without-imds table violation
aborts create with that error, and the no-email ssh-key request is never
accepted. -/
theorem claimC2_validation_abort_amended_witness :
    create false false ["time-sync"] none none none none =
      .err .timeSyncNeedsImds ∧
    create false false ["imds", "ssh-key-with-email"] none none none none ≠
      .ok [Plugin.imds, Plugin.sshKeyWithEmail] [] :=
  ⟨claimC2_validation_abort_amended.1 false false ["time-sync"]
      none none none none .timeSyncNeedsImds (by decide),
   claimC2_validation_abort_amended.2 false false
      ["imds", "ssh-key-with-email"] none none none
      [Plugin.imds, Plugin.sshKeyWithEmail] [] (by decide)⟩

/-- Witness for C10 panic freedom at a concrete benign input. -/
theorem claimC10_panic_freedom_witness :
    create false false ["imds"] none none none none ≠ .panic :=
  claimC10_panic_freedom.1 false false ["imds"] none none none none
    (fun h => h) (by decide)

theorem mainPass_no_marker_no_sshclean {email : Option String}
    {st2 : AsmSt} {l : List Plugin}
    (h : mainPass email ⟨[Frag.start], false⟩ l = .ok st2) :
    Frag.marker ∉ st2.contents ∧
    Frag.gen .cleanupImageSshKeys ∉ st2.contents := by
  obtain ⟨suf, he, hm⟩ := mainPass_ok_shape h
  rw [he]
  constructor
  · intro hmem
    rcases List.mem_append.mp hmem with h1 | h1
    · simp at h1
    · rcases hm _ h1 with h2 | h2 | ⟨q, h2, _⟩ <;> simp at h2
  · intro hmem
    rcases List.mem_append.mp hmem with h1 | h1
    · simp at h1
    · rcases hm _ h1 with h2 | h2 | ⟨q, h2, hq⟩
      · simp at h2
      · simp at h2
      · rw [← Frag.gen.inj h2] at hq
        simp [skipP] at hq

/-- C6: whenever create succeeds on a selection containing both the
package-cleanup and the SSH-key-cleanup capabilities, the output ends with
the completion-marker block followed by exactly the SSH-key-cleanup
fragment (and the final separator): the package-cleanup fragment occurs
strictly before the marker, the SSH-key-cleanup fragment strictly after it,
and it is the only generated fragment after the marker. -/
theorem claimC6_cleanup_order :
    ∀ (archNvidia requireStaticIpProvisioner : Bool)
      (pluginsStr : List String)
      (sshKeyEmail awsSecretKeyId awsSecretAccessKey postInitScriptTxt :
        Option String)
      (pl : List Plugin) (out : List Frag),
    Plugin.cleanupImagePackages ∈ resolvedSet archNvidia
      requireStaticIpProvisioner postInitScriptTxt.isSome pluginsStr →
    Plugin.cleanupImageSshKeys ∈ resolvedSet archNvidia
      requireStaticIpProvisioner postInitScriptTxt.isSome pluginsStr →
    create archNvidia requireStaticIpProvisioner pluginsStr sshKeyEmail
      awsSecretKeyId awsSecretAccessKey postInitScriptTxt = .ok pl out →
    ∃ pre, out = pre ++ [Frag.sep, Frag.marker, Frag.sep,
        Frag.gen .cleanupImageSshKeys, Frag.sep] ∧
      Frag.gen .cleanupImagePackages ∈ pre ∧
      Frag.marker ∉ pre ∧
      Frag.gen .cleanupImageSshKeys ∉ pre := by
  intro archNvidia requireStaticIpProvisioner pluginsStr sshKeyEmail
    awsSecretKeyId awsSecretAccessKey postInitScriptTxt pl out hpk hssh h
  obtain ⟨-, st, hm, -, c8, hep, hout⟩ := create_ok_inv h
  have htail : epilogueTail (resolvedSet archNvidia
      requireStaticIpProvisioner postInitScriptTxt.isSome pluginsStr) =
      [Frag.sep, Frag.marker, Frag.sep, Frag.gen .cleanupImageSshKeys,
       Frag.sep] := by
    unfold epilogueTail
    rw [if_pos hssh]
    rfl
  have hnm := mainPass_no_marker_no_sshclean hm
  have hc1 : ∀ f, f ∈ (if st.updatedBashProfile then st.contents
      else st.contents ++ [Frag.sep, Frag.bashProfile]) →
      f ∈ st.contents ∨ f = Frag.sep ∨ f = Frag.bashProfile := by
    intro f hf
    split at hf
    · exact Or.inl hf
    · rcases List.mem_append.mp hf with h1 | h1
      · exact Or.inl h1
      · fin_cases h1
        · exact Or.inr (Or.inl rfl)
        · exact Or.inr (Or.inr rfl)
  obtain ⟨suf, he8, hm8⟩ := epiPre_shape hep
  refine ⟨c8, by rw [hout, htail], epiPre_mem_packages hep hpk, ?_, ?_⟩
  · intro hmem
    rw [he8] at hmem
    rcases List.mem_append.mp hmem with h1 | h1
    · rcases hc1 _ h1 with h2 | h2 | h2
      · exact hnm.1 h2
      · simp at h2
      · simp at h2
    · rcases hm8 _ h1 with h2 | h2 | h2 | h2 | h2 | h2 | h2 | h2 <;>
        simp at h2
  · intro hmem
    rw [he8] at hmem
    rcases List.mem_append.mp hmem with h1 | h1
    · rcases hc1 _ h1 with h2 | h2 | h2
      · exact hnm.2 h2
      · simp at h2
      · simp at h2
    · rcases hm8 _ h1 with h2 | h2 | h2 | h2 | h2 | h2 | h2 | h2 <;>
        simp at h2

/-- Witness for C6 at the concrete request selecting exactly the two
cleanup capabilities. -/
theorem claimC6_cleanup_order_witness :
    ∃ pre, [Frag.start, Frag.sep, Frag.bashProfile, Frag.sep,
        Frag.gen .cleanupImagePackages, Frag.sep, Frag.marker, Frag.sep,
        Frag.gen .cleanupImageSshKeys, Frag.sep] =
      pre ++ [Frag.sep, Frag.marker, Frag.sep,
        Frag.gen .cleanupImageSshKeys, Frag.sep] ∧
      Frag.gen .cleanupImagePackages ∈ pre ∧
      Frag.marker ∉ pre ∧
      Frag.gen .cleanupImageSshKeys ∉ pre :=
  claimC6_cleanup_order false false
    ["cleanup-image-packages", "cleanup-image-ssh-keys"]
    none none none none
    [Plugin.cleanupImagePackages, Plugin.cleanupImageSshKeys]
    [Frag.start, Frag.sep, Frag.bashProfile, Frag.sep,
     Frag.gen .cleanupImagePackages, Frag.sep, Frag.marker, Frag.sep,
     Frag.gen .cleanupImageSshKeys, Frag.sep]
    (by decide) (by decide) (by decide)

theorem countBP_eq_zero_iff {l : List Frag} :
    countBP l = 0 ↔ Frag.bashProfile ∉ l := by
  rw [countBP, List.length_eq_zero, List.filter_eq_nil_iff]
  constructor
  · intro h hmem
    have := h _ hmem
    simp at this
  · intro h f hf
    simp only [decide_eq_true_eq]
    intro heq
    exact h (heq ▸ hf)

theorem countBP_epilogueTail (s : List Plugin) :
    countBP (epilogueTail s) = 0 := by
  unfold epilogueTail
  split <;> decide

/-- C1: on every successful create, the environment/profile-update
(bash-profile) fragment occurs exactly once in the output; when the
system-limit-bump trigger is selected the fragment follows its generated
fragment immediately (only the separator banner between them); when only
the static-volume-provisioner trigger is selected (the higher-ranked
trigger, so system-limit-bump is whichever occurs first when both are
present) the fragment immediately follows that fragment instead; and when
neither trigger is selected the fragment is emitted at the very start of
the epilogue, directly after the main-pass contents. -/
theorem claimC1_profile_update_once :
    ∀ (archNvidia requireStaticIpProvisioner : Bool)
      (pluginsStr : List String)
      (sshKeyEmail awsSecretKeyId awsSecretAccessKey postInitScriptTxt :
        Option String)
      (pl : List Plugin) (out : List Frag),
    create archNvidia requireStaticIpProvisioner pluginsStr sshKeyEmail
      awsSecretKeyId awsSecretAccessKey postInitScriptTxt = .ok pl out →
    countBP out = 1 ∧
    (Plugin.systemLimitBump ∈ resolvedSet archNvidia
        requireStaticIpProvisioner postInitScriptTxt.isSome pluginsStr →
      ∃ pre post, out = pre ++ [Frag.gen .systemLimitBump, Frag.sep,
        Frag.bashProfile] ++ post) ∧
    (Plugin.systemLimitBump ∉ resolvedSet archNvidia
        requireStaticIpProvisioner postInitScriptTxt.isSome pluginsStr →
      Plugin.staticVolumeProvisioner ∈ resolvedSet archNvidia
        requireStaticIpProvisioner postInitScriptTxt.isSome pluginsStr →
      ∃ pre post, out = pre ++ [Frag.gen .staticVolumeProvisioner, Frag.sep,
        Frag.bashProfile] ++ post) ∧
    (Plugin.systemLimitBump ∉ resolvedSet archNvidia
        requireStaticIpProvisioner postInitScriptTxt.isSome pluginsStr →
      Plugin.staticVolumeProvisioner ∉ resolvedSet archNvidia
        requireStaticIpProvisioner postInitScriptTxt.isSome pluginsStr →
      ∃ st post, mainPass sshKeyEmail ⟨[Frag.start], false⟩
          (sortRank (resolvedSet archNvidia requireStaticIpProvisioner
            postInitScriptTxt.isSome pluginsStr)) = .ok st ∧
        Frag.bashProfile ∉ st.contents ∧
        out = st.contents ++ [Frag.sep, Frag.bashProfile] ++ post) := by
  intro archNvidia requireStaticIpProvisioner pluginsStr sshKeyEmail
    awsSecretKeyId awsSecretAccessKey postInitScriptTxt pl out h
  obtain ⟨-, st, hm, -, c8, hep, hout⟩ := create_ok_inv h
  set S4 := resolvedSet archNvidia requireStaticIpProvisioner
    postInitScriptTxt.isSome pluginsStr with hS4
  obtain ⟨suf, he8, hm8⟩ := epiPre_shape hep
  have hct : countBP st.contents = cond st.updatedBashProfile 1 0 :=
    mainPass_inv hm (by simp [countBP])
  have hsuf0 : countBP suf = 0 := countBP_eq_zero_iff.mpr (by
    intro hmem
    rcases hm8 _ hmem with h2 | h2 | h2 | h2 | h2 | h2 | h2 | h2 <;>
      simp at h2)
  have hsort : (sortRank S4).Pairwise
      (fun a b : Plugin => a.rank ≤ b.rank) :=
    List.sorted_insertionSort (fun a b : Plugin => a.rank ≤ b.rank) S4
  refine ⟨?_, ?_, ?_, ?_⟩
  · rw [hout, countBP_append, he8, countBP_append, hsuf0,
      countBP_epilogueTail]
    by_cases hf : st.updatedBashProfile = true
    · rw [if_pos hf, hct, hf]
      rfl
    · rw [if_neg hf, countBP_append, hct]
      have hf2 : st.updatedBashProfile = false := by
        simpa using hf
      rw [hf2]
      decide
  · intro hslb
    obtain ⟨pre0, post0, hseg⟩ := mainPass_trigger_seg hsort rfl hm
      .systemLimitBump (Or.inl rfl) ((List.mem_insertionSort _).mpr hslb)
      (by
        intro u hu humem
        rcases hu with rfl | rfl <;> decide)
    by_cases hf : st.updatedBashProfile = true
    · refine ⟨pre0, post0 ++ suf ++ epilogueTail S4, ?_⟩
      rw [hout, he8, if_pos hf, hseg]
      simp [List.append_assoc]
    · refine ⟨pre0, post0 ++ [Frag.sep, Frag.bashProfile] ++ suf ++
        epilogueTail S4, ?_⟩
      rw [hout, he8, if_neg hf, hseg]
      simp [List.append_assoc]
  · intro hslb hsvp
    obtain ⟨pre0, post0, hseg⟩ := mainPass_trigger_seg hsort rfl hm
      .staticVolumeProvisioner (Or.inr rfl)
      ((List.mem_insertionSort _).mpr hsvp)
      (by
        intro u hu humem
        rcases hu with rfl | rfl
        · exact absurd ((List.mem_insertionSort _).mp humem) hslb
        · decide)
    by_cases hf : st.updatedBashProfile = true
    · refine ⟨pre0, post0 ++ suf ++ epilogueTail S4, ?_⟩
      rw [hout, he8, if_pos hf, hseg]
      simp [List.append_assoc]
    · refine ⟨pre0, post0 ++ [Frag.sep, Frag.bashProfile] ++ suf ++
        epilogueTail S4, ?_⟩
      rw [hout, he8, if_neg hf, hseg]
      simp [List.append_assoc]
  · intro hslb hsvp
    have hf : st.updatedBashProfile = false := by
      have := mainPass_noTrigger_flag
        (fun hmem => hslb ((List.mem_insertionSort _).mp hmem))
        (fun hmem => hsvp ((List.mem_insertionSort _).mp hmem)) hm
      simpa using this
    refine ⟨st, suf ++ epilogueTail S4, hm, ?_, ?_⟩
    · refine countBP_eq_zero_iff.mp ?_
      rw [hct, hf]
      rfl
    · rw [hout, he8, if_neg (by rw [hf]; exact Bool.false_ne_true)]
      simp [List.append_assoc]

/-- Witness for C1 at the concrete request selecting only the
system-limit-bump trigger. -/
theorem claimC1_profile_update_once_witness :
    countBP [Frag.start, Frag.sep, Frag.gen .systemLimitBump, Frag.sep,
      Frag.bashProfile, Frag.sep, Frag.marker, Frag.sep] = 1 ∧
    ∃ pre post, [Frag.start, Frag.sep, Frag.gen .systemLimitBump, Frag.sep,
      Frag.bashProfile, Frag.sep, Frag.marker, Frag.sep] =
      pre ++ [Frag.gen .systemLimitBump, Frag.sep, Frag.bashProfile] ++
        post :=
  ⟨(claimC1_profile_update_once false false ["system-limit-bump"] none none
      none none [Plugin.systemLimitBump]
      [Frag.start, Frag.sep, Frag.gen .systemLimitBump, Frag.sep,
       Frag.bashProfile, Frag.sep, Frag.marker, Frag.sep] (by decide)).1,
   (claimC1_profile_update_once false false ["system-limit-bump"] none none
      none none [Plugin.systemLimitBump]
      [Frag.start, Frag.sep, Frag.gen .systemLimitBump, Frag.sep,
       Frag.bashProfile, Frag.sep, Frag.marker, Frag.sep] (by decide)).2.1
    (by decide)⟩

/-- C7 counterexample: the conflict rule is the last rule of the validation
table, so an earlier violation masks it: on the request selecting time-sync
(without imds) together with both AMI capabilities, the resolved selection
contains both conflicting capabilities, yet create fails with the
time-sync-requires-imds error, which is not the conflict error naming the
two AMI capabilities — refuting the claim that every such input fails with
a ConflictingCapabilities error. -/
theorem claimC7_counterexample :
    Plugin.eksWorkerNodeAmiScratch ∈ resolvedSet false false false
      ["time-sync", "eks-worker-node-ami-scratch",
       "eks-worker-node-ami-reuse"] ∧
    Plugin.eksWorkerNodeAmiReuse ∈ resolvedSet false false false
      ["time-sync", "eks-worker-node-ami-scratch",
       "eks-worker-node-ami-reuse"] ∧
    create false false
      ["time-sync", "eks-worker-node-ami-scratch",
       "eks-worker-node-ami-reuse"] none none none none =
      .err .timeSyncNeedsImds ∧
    VErr.timeSyncNeedsImds ≠
      .conflictingPlugins .eksWorkerNodeAmiScratch .eksWorkerNodeAmiReuse :=
  by decide
